import Mathlib

/-!
Verification development for the advanced-rag-system frontend client layer.

The repository under verification is a single-page application whose visible
logic is: a shared HTTP client (`frontend/src/services/api.js`), one domain API
module per backend capability, and page components that build request payloads
from form state and store response payloads in page-local view state.

This file shallowly embeds that layer: each domain API function becomes a Lean
function from its JavaScript arguments to the `Request` record it emits, and
each page handler becomes a function from its inputs and local state to the
list of requests it issues together with its updated state.  JavaScript values
that flow into request bodies are modelled by the small JSON fragment `JVal`
(strings, string arrays, and one level of object nesting), which covers every
body shape the source constructs.
-/

namespace RagFrontend

/-- A primitive JSON value appearing in a request body: a string or an array
of strings (the only primitive shapes the source serializes). -/
inductive JPrim where
  | s (v : String)
  | list (vs : List String)
deriving DecidableEq, Repr

/-- A JSON value in a request body: a primitive, or an object whose fields are
primitives.  One level of nesting suffices for every body the source builds
(nested objects arise only from pages passing an argument object where the API
module expects positional arguments). -/
inductive JVal where
  | prim (p : JPrim)
  | obj (fields : List (String × JPrim))
deriving DecidableEq, Repr

/-- Shorthand for a JSON string value. -/
def JVal.str (v : String) : JVal := .prim (.s v)

/-- Shorthand for a JSON array-of-strings value. -/
def JVal.strList (vs : List String) : JVal := .prim (.list vs)

/-- HTTP method of an emitted request (the source only uses GET and POST). -/
inductive Method where
  | get
  | post
deriving DecidableEq, Repr

/-- The wire request a domain API function emits through the shared client:
method, path, JSON body fields, and the per-request config overrides the
source can pass to `api.post`/`api.get` (only headers are ever overridden;
no call site overrides the timeout). -/
structure Request where
  method : Method
  path : String
  body : List (String × JVal) := []
  timeout : Option Nat := none
  headers : List (String × String) := []
deriving DecidableEq, Repr

/-- The shared axios client configuration from `api.js`: base URL, fixed
timeout of 30000 ms, and default JSON content type. -/
structure ClientConfig where
  baseURL : String
  timeout : Nat
  contentType : String
deriving DecidableEq, Repr

/-- The `axios.create` call in `api.js` (base URL default when the environment
variable is unset). -/
def apiClient : ClientConfig :=
  { baseURL := "http://localhost:8000"
    timeout := 30000
    contentType := "application/json" }

/-- Effective client-side timeout of a request: its per-request override if
present, otherwise the shared client timeout. -/
def effectiveTimeout (r : Request) : Nat :=
  r.timeout.getD apiClient.timeout

/-! ### Domain API modules (`frontend/src/services/api.js`)

Each function mirrors one exported JavaScript function.  Optional JavaScript
parameters with defaults become `Option JVal` arguments resolved with `getD`,
which is exactly the JavaScript default-parameter rule (the default applies
when the caller omits the argument). -/

/-- Embeds `pdfAPI.uploadPDF`: multipart upload; the FormData field `file` is
modelled as a body field, and the per-request config overrides only the
Content-Type header. -/
def pdfAPI.uploadPDF (file : JVal) : Request :=
  { method := .post
    path := "/api/pdf/upload"
    body := [("file", file)]
    headers := [("Content-Type", "multipart/form-data")] }

/-- Embeds `pdfAPI.downloadPDF`. -/
def pdfAPI.downloadPDF (url : JVal) : Request :=
  { method := .post, path := "/api/pdf/download", body := [("url", url)] }

/-- Embeds `ragAPI.query` with JavaScript default `searchType = "hybrid"`. -/
def ragAPI.query (question : JVal) (searchType : Option JVal := none) : Request :=
  { method := .post
    path := "/api/rag/query"
    body := [("question", question), ("search_type", searchType.getD (JVal.str "hybrid"))] }

/-- Embeds `ragAPI.stepbackQuery`. -/
def ragAPI.stepbackQuery (question : JVal) : Request :=
  { method := .post, path := "/api/rag/stepback", body := [("question", question)] }

/-- Embeds `text2cypherAPI.query`, whose JavaScript defaults make
`terminology` and `examples` empty strings. -/
def text2cypherAPI.query (question : JVal)
    (terminology : Option JVal := none) (examples : Option JVal := none) : Request :=
  { method := .post
    path := "/api/text2cypher/query"
    body := [("question", question),
             ("terminology", terminology.getD (JVal.str "")),
             ("examples", examples.getD (JVal.str ""))] }

/-- Embeds `text2cypherAPI.getSchema`. -/
def text2cypherAPI.getSchema : Request :=
  { method := .get, path := "/api/text2cypher/schema" }

/-- Embeds `text2cypherAPI.loadMoviesDataset`. -/
def text2cypherAPI.loadMoviesDataset : Request :=
  { method := .post, path := "/api/text2cypher/load-movies" }

/-- Embeds `agenticRAGAPI.query`. -/
def agenticRAGAPI.query (question : JVal) : Request :=
  { method := .post, path := "/api/agentic-rag/query", body := [("question", question)] }

/-- Embeds `agenticRAGAPI.getTools`. -/
def agenticRAGAPI.getTools : Request :=
  { method := .get, path := "/api/agentic-rag/tools" }

/-- The JavaScript default of the second parameter of `entityAPI.extract`. -/
def defaultEntityTypes : List String := ["PERSON", "ORGANIZATION", "LOCATION", "EVENT"]

/-- Embeds `entityAPI.extract (text, entityTypes = [...])`: two positional
parameters; the second defaults to `defaultEntityTypes` when the caller
passes only one argument. -/
def entityAPI.extract (text : JVal) (entityTypes : Option JVal := none) : Request :=
  { method := .post
    path := "/api/entities/extract"
    body := [("text", text),
             ("entity_types", entityTypes.getD (JVal.strList defaultEntityTypes))] }

/-- Embeds `entityAPI.getGraph`. -/
def entityAPI.getGraph : Request :=
  { method := .get, path := "/api/entities/graph" }

/-- Embeds `contractAPI.extract`. -/
def contractAPI.extract (contractText : JVal) : Request :=
  { method := .post, path := "/api/contracts/extract", body := [("contract_text", contractText)] }

/-- Embeds `contractAPI.list`. -/
def contractAPI.list : Request :=
  { method := .get, path := "/api/contracts/list" }

/-- Embeds `graphRAGAPI.globalQuery`. -/
def graphRAGAPI.globalQuery (question : JVal) : Request :=
  { method := .post, path := "/api/graph-rag/global", body := [("question", question)] }

/-- Embeds `graphRAGAPI.localQuery`. -/
def graphRAGAPI.localQuery (question : JVal) : Request :=
  { method := .post, path := "/api/graph-rag/local", body := [("question", question)] }

/-- Embeds `graphRAGAPI.calculateCommunities`. -/
def graphRAGAPI.calculateCommunities : Request :=
  { method := .post, path := "/api/graph-rag/communities" }

/-- Embeds `statsAPI.getStats`. -/
def statsAPI.getStats : Request :=
  { method := .get, path := "/api/stats" }

/-- Embeds `statsAPI.getHealth`. -/
def statsAPI.getHealth : Request :=
  { method := .get, path := "/health" }

/-- Embeds `knowledgeGraphAPI.extract`. -/
def knowledgeGraphAPI.extract (document : JVal) : Request :=
  { method := .post, path := "/api/knowledge-graph/extract", body := [("document", document)] }

/-- Embeds `knowledgeGraphAPI.import` (named `importDocument` here because `import`
is a Lean keyword). -/
def knowledgeGraphAPI.importDocument (document : JVal) : Request :=
  { method := .post, path := "/api/knowledge-graph/import", body := [("document", document)] }

/-- Embeds `knowledgeGraphAPI.getSampleContract`. -/
def knowledgeGraphAPI.getSampleContract : Request :=
  { method := .get, path := "/api/knowledge-graph/sample-contract" }

/-- Embeds `knowledgeGraphAPI.getGraphData`. -/
def knowledgeGraphAPI.getGraphData : Request :=
  { method := .get, path := "/api/knowledge-graph/data" }

/-- Embeds `knowledgeGraphAPI.query`. -/
def knowledgeGraphAPI.query (question : JVal) : Request :=
  { method := .post, path := "/api/knowledge-graph/query", body := [("question", question)] }

/-- Embeds `knowledgeGraphAPI.createConstraints`. -/
def knowledgeGraphAPI.createConstraints : Request :=
  { method := .post, path := "/api/knowledge-graph/constraints" }

/-- Embeds `knowledgeGraphAPI.getStatistics`. -/
def knowledgeGraphAPI.getStatistics : Request :=
  { method := .get, path := "/api/knowledge-graph/statistics" }

/-- Embeds `knowledgeGraphAPI.clear`. -/
def knowledgeGraphAPI.clear : Request :=
  { method := .post, path := "/api/knowledge-graph/clear" }

/-- Embeds `databaseAPI.reset`. -/
def databaseAPI.reset : Request :=
  { method := .post, path := "/api/database/reset" }

/-! ### String trimming (JavaScript `String.prototype.trim`)

Pages guard submissions with `if (!input.trim()) return`, which is truthy
exactly when the input minus leading/trailing whitespace is non-empty. -/

/-- The whitespace characters relevant to `trim` (space, tab, line feed,
vertical tab, form feed, carriage return). -/
def jsWhitespace (c : Char) : Bool :=
  c = ' ' || c = '\t' || c = '\n' || c = '\r' || c.val = 11 || c.val = 12

/-- Embeds `trim` on the character list: drop whitespace from both ends. -/
def jsTrimList (l : List Char) : List Char :=
  ((l.dropWhile jsWhitespace).reverse.dropWhile jsWhitespace).reverse

/-- The page guard `!input.trim()`: true when the trimmed string is empty. -/
def jsBlank (s : String) : Bool :=
  (jsTrimList s.data).isEmpty

/-! ### Page components -/

/-- One chat message of the RAG Chat page (`type` is `"user"` or `"bot"`,
`content` is the rendered text). -/
structure ChatMessage where
  type : String
  content : String
deriving DecidableEq, Repr

/-- The function passed to `useMutation` on the RAG Chat page: step-back
queries go to `ragAPI.stepbackQuery`, everything else to `ragAPI.query` with
the selected type as `search_type`. -/
def RAGChat.mutationFn (question : String) (type : String) : Request :=
  if type = "stepback" then ragAPI.stepbackQuery (JVal.str question)
  else ragAPI.query (JVal.str question) (some (JVal.str type))

/-- Embeds `RAGChat.handleSubmit`: returns early when the input is blank or a query
is already in flight; otherwise appends the user message and issues exactly
the mutation request.  Result: (new message list, requests issued). -/
def RAGChat.handleSubmit (input : String) (searchType : String) (isLoading : Bool)
    (messages : List ChatMessage) : List ChatMessage × List Request :=
  if jsBlank input || isLoading then (messages, [])
  else (messages ++ [{ type := "user", content := input }],
        [RAGChat.mutationFn input searchType])

/-- Embeds `RAGChat` mutation `onSuccess`: appends a bot message whose content is the
`answer` field of the response, verbatim. -/
def RAGChat.onQuerySuccess (answer : String) (messages : List ChatMessage) : List ChatMessage :=
  messages ++ [{ type := "bot", content := answer }]

/-- The fixed bot reply appended by the RAG Chat mutation `onError`. -/
def RAGChat.errorReplyText : String :=
  "Sorry, I encountered an error while processing your question. Please try again."

/-- Embeds `RAGChat` mutation `onError`: emits a toast and appends a fixed error bot
message; prior messages are untouched.  Result: (new message list, toasts). -/
def RAGChat.onQueryError (messages : List ChatMessage) : List ChatMessage × List String :=
  (messages ++ [{ type := "bot", content := RAGChat.errorReplyText }],
   ["Failed to get response"])

/-- Local state of the Graph RAG page relevant to result display. -/
structure GraphRAGState where
  question : String := ""
  searchType : String := "global"
  result : Option JVal := none
deriving DecidableEq, Repr

/-- Embeds `GraphRAG.handleSubmit`: returns early on blank question, otherwise calls
the global or local mutation with the argument object `{ question }`.  Note
the mutation variable is the object itself, which the API module inserts as
the `question` body field (call-convention mismatch preserved from source). -/
def GraphRAG.handleSubmit (question : String) (searchType : String) : List Request :=
  if jsBlank question then []
  else if searchType = "global" then
    [graphRAGAPI.globalQuery (JVal.obj [("question", JPrim.s question)])]
  else
    [graphRAGAPI.localQuery (JVal.obj [("question", JPrim.s question)])]

/-- Embeds `GraphRAG` global/local mutation `onSuccess`: overwrites the result slice
with the response payload. -/
def GraphRAG.onQuerySuccess (payload : JVal) (s : GraphRAGState) : GraphRAGState :=
  { s with result := some payload }

/-- Embeds `GraphRAG` global mutation `onError`: toast and console log only. -/
def GraphRAG.onGlobalError (s : GraphRAGState) : GraphRAGState × List String :=
  (s, ["Failed to perform global graph RAG"])

/-- Embeds `GraphRAG` local mutation `onError`: toast and console log only. -/
def GraphRAG.onLocalError (s : GraphRAGState) : GraphRAGState × List String :=
  (s, ["Failed to perform local graph RAG"])

/-- Embeds `GraphRAG` communities mutation `onError`: toast and console log only. -/
def GraphRAG.onCommunitiesError (s : GraphRAGState) : GraphRAGState × List String :=
  (s, ["Failed to calculate communities"])

/-- Local state of the PDF Processor page relevant to result display. -/
structure PDFProcessorState where
  url : String := ""
  processingResults : Option JVal := none
deriving DecidableEq, Repr

/-- Embeds `PDFProcessor` upload mutation `onError`: toast and console log only. -/
def PDFProcessor.onUploadError (s : PDFProcessorState) : PDFProcessorState × List String :=
  (s, ["Failed to upload PDF"])

/-- Embeds `PDFProcessor` download mutation `onError`: toast and console log only. -/
def PDFProcessor.onDownloadError (s : PDFProcessorState) : PDFProcessorState × List String :=
  (s, ["Failed to download PDF"])

/-- Local state of the Agentic RAG page relevant to result display. -/
structure AgenticRAGState where
  question : String := ""
  isLoading : Bool := false
  result : Option JVal := none
deriving DecidableEq, Repr

/-- Embeds `AgenticRAG` query mutation `onError` followed by `onSettled`: emits a
toast, clears the displayed result (`setResult(null)`), and clears the
loading flag. -/
def AgenticRAG.onQueryError (errDetail : String) (s : AgenticRAGState) :
    AgenticRAGState × List String :=
  ({ s with result := none, isLoading := false },
   ["Failed to process query: " ++ errDetail])

/-- Local state of the Contract Extraction page relevant to result display. -/
structure ContractExtractionState where
  contractText : String := ""
  result : Option JVal := none
deriving DecidableEq, Repr

/-- Embeds `ContractExtraction` extract mutation `onError`: toast and log only. -/
def ContractExtraction.onExtractError (s : ContractExtractionState) :
    ContractExtractionState × List String :=
  (s, ["Failed to extract contract information"])

/-- Local state of the Entity Extraction page relevant to result display. -/
structure EntityExtractionState where
  text : String := ""
  entityTypes : List String := defaultEntityTypes
  result : Option JVal := none
deriving DecidableEq, Repr

/-- Embeds `EntityExtraction` extract mutation `onError`: toast and log only. -/
def EntityExtraction.onExtractError (s : EntityExtractionState) :
    EntityExtractionState × List String :=
  (s, ["Failed to extract entities"])

/-- Embeds `EntityExtraction.handleSubmit`: returns early when the text is blank;
otherwise calls `extractMutation.mutate({ text, entityTypes })` — a single
argument object handed to the two-parameter `entityAPI.extract`, so the
object lands in the `text` parameter and `entityTypes` takes its default. -/
def EntityExtraction.handleSubmit (text : String) (entityTypes : List String) : List Request :=
  if jsBlank text then []
  else [entityAPI.extract
          (JVal.obj [("text", JPrim.s text), ("entityTypes", JPrim.list entityTypes)])
          none]

/-- Embeds `EntityExtraction.handleEntityTypeChange`: toggles one type in the
selected list — filters it out when present, appends it when absent. -/
def EntityExtraction.handleEntityTypeChange (t : String) (prev : List String) : List String :=
  if t ∈ prev then prev.filter (· != t) else prev ++ [t]

/-- Local state of the Text2Cypher page relevant to result display. -/
structure Text2CypherState where
  question : String := ""
  terminology : String := ""
  examples : String := ""
  cypherQuery : String := ""
  queryResults : Option JVal := none
  isGenerating : Bool := false
deriving DecidableEq, Repr

/-- Embeds `Text2Cypher.handleGenerateCypher` catch branch (with the `finally`):
toast only, generation flag cleared; the displayed query and results are
untouched. -/
def Text2Cypher.onGenerateError (errDetail : String) (s : Text2CypherState) :
    Text2CypherState × List String :=
  ({ s with isGenerating := false },
   ["Failed to generate Cypher query: " ++ errDetail])

/-- Embeds `Text2Cypher.handleResetDatabase`: issues the reset only when the blocking
`window.confirm` returned affirmative; on success the mutation refetches the
schema and clears the query panel, on failure it only toasts.  Result:
(requests issued, final state). -/
def Text2Cypher.handleResetDatabase (confirmed : Bool) (resetSucceeds : Bool)
    (s : Text2CypherState) : List Request × Text2CypherState :=
  if confirmed then
    if resetSucceeds then
      ([databaseAPI.reset, text2cypherAPI.getSchema],
       { s with cypherQuery := "", queryResults := none })
    else
      ([databaseAPI.reset], s)
  else ([], s)

/-- Embeds `Statistics.handleResetDatabase`: issues the reset only on affirmative
confirmation; on success it refetches the stats query. -/
def Statistics.handleResetDatabase (confirmed : Bool) (resetSucceeds : Bool) : List Request :=
  if confirmed then
    databaseAPI.reset :: (if resetSucceeds then [statsAPI.getStats] else [])
  else []

/-- Embeds `Dashboard.handleResetDatabase`: same shape as the Statistics page. -/
def Dashboard.handleResetDatabase (confirmed : Bool) (resetSucceeds : Bool) : List Request :=
  if confirmed then
    databaseAPI.reset :: (if resetSucceeds then [statsAPI.getStats] else [])
  else []

/-- Local state of the Knowledge Graph Construction page relevant to the
claims (text input, displayed extraction, displayed graph, error banner,
loading flag). -/
structure KGCState where
  contractText : String := ""
  extractedData : Option JVal := none
  graphData : Option JVal := none
  error : Option String := none
  loading : Bool := false
deriving DecidableEq, Repr

/-- Embeds `KnowledgeGraphConstruction.extractContractInfo`: blank text sets an
error and issues nothing; otherwise the extract endpoint is called, the
result stored on success, and only the error banner set on failure (the
`finally` clears the loading flag either way). -/
def KnowledgeGraphConstruction.extractContractInfo (contractText : String)
    (succeeds : Bool) (payload : JVal) (errDetail : String) (s : KGCState) :
    List Request × KGCState :=
  if jsBlank contractText then
    ([], { s with error := some "Please enter contract text" })
  else if succeeds then
    ([knowledgeGraphAPI.extract (JVal.str contractText)],
     { s with extractedData := some payload, error := none, loading := false })
  else
    ([knowledgeGraphAPI.extract (JVal.str contractText)],
     { s with error := some errDetail, loading := false })

/-- Embeds `KnowledgeGraphConstruction.clearData`: a negative `window.confirm`
returns before anything happens; on affirmative confirmation the clear
endpoint is called, then on success the displayed data is cleared and the
statistics are reloaded, while on failure only the error banner is set. -/
def KnowledgeGraphConstruction.clearData (confirmed : Bool) (clearSucceeds : Bool)
    (errDetail : String) (s : KGCState) : List Request × KGCState :=
  if confirmed then
    if clearSucceeds then
      ([knowledgeGraphAPI.clear, knowledgeGraphAPI.getStatistics],
       { s with extractedData := none, graphData := none, error := none, loading := false })
    else
      ([knowledgeGraphAPI.clear],
       { s with error := some errDetail, loading := false })
  else ([], s)

/-! ### react-query configuration (retry policy)

Each `useQuery` call site either leaves `retry` unset, sets `retry: false`,
or sets `retry: 3`; no `useMutation` call site sets a retry. -/

/-- The retry setting of a react-query call site: left unset, explicitly
disabled (`retry: false`), or an explicit retry count (`retry: n`). -/
inductive RetrySetting where
  | unset
  | off
  | times (n : Nat)
deriving DecidableEq, Repr

/-- The configuration of one `useQuery` call site as written in the source. -/
structure QueryConfig where
  key : String
  retry : RetrySetting := .unset
  refetchInterval : Option Nat := none
  refetchOnWindowFocus : Bool := true
  enabled : Bool := true
deriving DecidableEq, Repr

/-- Embeds `useQuery("agentic-rag-tools", ...)` on the Agentic RAG page. -/
def AgenticRAG.toolsQueryConfig : QueryConfig :=
  { key := "agentic-rag-tools", retry := .times 3, refetchOnWindowFocus := false }

/-- Embeds `useQuery("text2cypher-schema", ...)` on the Text2Cypher page. -/
def Text2Cypher.schemaQueryConfig : QueryConfig :=
  { key := "text2cypher-schema", retry := .off }

/-- Embeds `useQuery("contracts", ...)` on the Contract Extraction page. -/
def ContractExtraction.contractsQueryConfig : QueryConfig :=
  { key := "contracts" }

/-- Embeds `useQuery("entity-graph", ...)` on the Entity Extraction page. -/
def EntityExtraction.entityGraphQueryConfig : QueryConfig :=
  { key := "entity-graph", enabled := false }

/-- Embeds `useQuery("detailed-stats", ...)` on the Statistics page. -/
def Statistics.detailedStatsQueryConfig : QueryConfig :=
  { key := "detailed-stats", refetchInterval := some 30000 }

/-- Embeds `useQuery("stats", ...)` on the Dashboard page. -/
def Dashboard.statsQueryConfig : QueryConfig :=
  { key := "stats", refetchInterval := some 30000 }

/-- Embeds `useQuery("health", ...)` on the Dashboard page. -/
def Dashboard.healthQueryConfig : QueryConfig :=
  { key := "health", refetchInterval := some 10000 }

/-- Every `useQuery` call site in the page layer. -/
def pageQueryConfigs : List QueryConfig :=
  [AgenticRAG.toolsQueryConfig, Text2Cypher.schemaQueryConfig,
   ContractExtraction.contractsQueryConfig, EntityExtraction.entityGraphQueryConfig,
   Statistics.detailedStatsQueryConfig, Dashboard.statsQueryConfig,
   Dashboard.healthQueryConfig]

/-- Retry settings of every `useMutation` call site in the page layer — no
call site passes a `retry` option. -/
def pageMutationRetrySettings : List (String × RetrySetting) :=
  [("pdf-upload", .unset), ("pdf-download", .unset), ("rag-query", .unset),
   ("graph-rag-global", .unset), ("graph-rag-local", .unset),
   ("graph-rag-communities", .unset), ("contract-extract", .unset),
   ("entity-extract", .unset), ("agentic-rag-query", .unset),
   ("text2cypher-load-movies", .unset), ("text2cypher-reset-database", .unset)]

/-- Whether a call site explicitly configures automatic retries. -/
def hasExplicitRetry : RetrySetting → Bool
  | .times _ => true
  | _ => false

/-- Upper bound on HTTP attempts per trigger for a call site with an explicit
retry setting (`none` when the setting is left to the library default):
`retry: false` means a single attempt, `retry: n` means the initial attempt
plus up to `n` retries. -/
def attemptsPerTrigger : RetrySetting → Option Nat
  | .off => some 1
  | .times n => some (n + 1)
  | .unset => none

/-! ### Settle-order semantics for result display

The displayed result of a page is produced by applying the settle handler of
each response in the order the responses settle; nothing in the source tags a
request or discards a stale response. -/

/-- A request settling: success with a response payload, or failure. -/
inductive SettleEvent where
  | success (payload : JVal)
  | failure
deriving DecidableEq, Repr

/-- Graph RAG settle handler: `onSuccess` overwrites the result with the
payload, `onError` leaves it unchanged. -/
def GraphRAG.applySettle (result : Option JVal) : SettleEvent → Option JVal
  | .success payload => some payload
  | .failure => result

/-- Displayed Graph RAG result after a sequence of settles (in settle
order). -/
def GraphRAG.displayAfter (init : Option JVal) (events : List SettleEvent) : Option JVal :=
  events.foldl GraphRAG.applySettle init

/-- A RAG Chat settle: success carrying the answer of the response, or failure. -/
inductive ChatSettle where
  | success (answer : String)
  | failure
deriving DecidableEq, Repr

/-- RAG Chat settle handler: `onSuccess` appends the answer as a bot message,
`onError` appends the fixed error reply. -/
def RAGChat.applySettle (messages : List ChatMessage) : ChatSettle → List ChatMessage
  | .success answer => RAGChat.onQuerySuccess answer messages
  | .failure => (RAGChat.onQueryError messages).1

/-- RAG Chat message list after a sequence of settles (in settle order). -/
def RAGChat.displayAfter (init : List ChatMessage) (events : List ChatSettle) :
    List ChatMessage :=
  events.foldl RAGChat.applySettle init

/-! ### Spec-side definitions (for refinement claims) -/

/-- Modelled from the spec: the §6 endpoint table rows that list one method
and one concrete path per operation. -/
def specEndpointTable : List (Method × String) :=
  [(.post, "/api/pdf/upload"), (.post, "/api/pdf/download"),
   (.post, "/api/rag/query"), (.post, "/api/rag/stepback"),
   (.post, "/api/text2cypher/query"), (.get, "/api/text2cypher/schema"),
   (.post, "/api/text2cypher/load-movies"),
   (.post, "/api/agentic-rag/query"), (.get, "/api/agentic-rag/tools"),
   (.post, "/api/entities/extract"), (.get, "/api/entities/graph"),
   (.post, "/api/contracts/extract"), (.get, "/api/contracts/list"),
   (.post, "/api/graph-rag/global"), (.post, "/api/graph-rag/local"),
   (.post, "/api/graph-rag/communities"),
   (.get, "/api/stats"), (.get, "/health"),
   (.post, "/api/database/reset")]

/-- Modelled from the spec: the §6 knowledge-graph row, which lists the
sub-operations extract, import, data, query, constraints, statistics, clear
and sample-contract under `POST/GET /api/knowledge-graph/*`. -/
def specKnowledgeGraphPaths : List String :=
  ["/api/knowledge-graph/extract", "/api/knowledge-graph/import",
   "/api/knowledge-graph/data", "/api/knowledge-graph/query",
   "/api/knowledge-graph/constraints", "/api/knowledge-graph/statistics",
   "/api/knowledge-graph/clear", "/api/knowledge-graph/sample-contract"]

/-- Modelled from the spec: the §6 table permits a (method, path) pair when
an explicit row lists it, or when the path is a knowledge-graph sub-operation
(whose row allows POST or GET). -/
def specAllows (m : Method) (p : String) : Bool :=
  (m, p) ∈ specEndpointTable ||
    (p ∈ specKnowledgeGraphPaths && (m = Method.get || m = Method.post))

/-- Modelled from the spec: the body §8.7 requires for an entity-extraction
submission with text `t` and selected types `S`. -/
def specEntityExtractBody (t : String) (S : List String) : List (String × JVal) :=
  [("text", JVal.str t), ("entity_types", JVal.strList S)]

/-! ### Helper lemmas -/

/-- The function `dropWhile` consumes a list all of whose elements satisfy the predicate. -/
theorem dropWhile_eq_nil_of_all {p : Char → Bool} {l : List Char}
    (h : ∀ c ∈ l, p c = true) : l.dropWhile p = [] := by
  induction l with
  | nil => rfl
  | cons a t ih =>
    rw [List.dropWhile_cons, if_pos (h a (List.mem_cons_self a t))]
    exact ih fun c hc => h c (List.mem_cons_of_mem a hc)

/-- A string consisting only of whitespace is blank under the page guard. -/
theorem jsBlank_of_all_whitespace {s : String}
    (h : ∀ c ∈ s.data, jsWhitespace c = true) : jsBlank s = true := by
  unfold jsBlank jsTrimList
  rw [dropWhile_eq_nil_of_all h]
  rfl

/-- Folding the Graph RAG settle handler yields the payload of the last
settle when that settle is a success. -/
theorem graphRAG_displayAfter_last {init : Option JVal} {l : List SettleEvent} {p : JVal}
    (h : l.getLast? = some (SettleEvent.success p)) :
    GraphRAG.displayAfter init l = some p := by
  induction l generalizing init with
  | nil => simp at h
  | cons e t ih =>
    cases t with
    | nil =>
      cases e with
      | success q =>
        simp only [List.getLast?_singleton, Option.some.injEq,
          SettleEvent.success.injEq] at h
        subst h
        rfl
      | failure => simp [List.getLast?_singleton] at h
    | cons e2 t2 =>
      rw [List.getLast?_cons_cons] at h
      exact ih h

/-- Folding the RAG Chat settle handler ends the message list with the bot
message of the last settle when that settle is a success. -/
theorem ragChat_displayAfter_last {init : List ChatMessage} {l : List ChatSettle} {a : String}
    (h : l.getLast? = some (ChatSettle.success a)) :
    (RAGChat.displayAfter init l).getLast? = some { type := "bot", content := a } := by
  induction l generalizing init with
  | nil => simp at h
  | cons e t ih =>
    cases t with
    | nil =>
      cases e with
      | success b =>
        simp only [List.getLast?_singleton, Option.some.injEq,
          ChatSettle.success.injEq] at h
        subst h
        exact List.getLast?_concat init
      | failure => simp [List.getLast?_singleton] at h
    | cons e2 t2 =>
      rw [List.getLast?_cons_cons] at h
      exact ih h

/-! ### Claim theorems -/

/-- C1: the claim states a submission with non-empty text `t` and selected
types `S` serializes the body as `{text: t, entity_types: S}`.  The code does
not: the page hands one argument object to the two-parameter
`entityAPI.extract`, so at text `"Apple"` with `S = ["PERSON"]` the emitted
body nests the argument object under `text` and serializes the four-element
default list — not `["PERSON"]` — as `entity_types`. -/
theorem C1_entity_types_dropped :
    EntityExtraction.handleSubmit "Apple" ["PERSON"] =
      [{ method := .post
         path := "/api/entities/extract"
         body := [("text", JVal.obj [("text", JPrim.s "Apple"),
                                     ("entityTypes", JPrim.list ["PERSON"])]),
                  ("entity_types", JVal.strList defaultEntityTypes)] }] ∧
    (EntityExtraction.handleSubmit "Apple" ["PERSON"]).map Request.body ≠
      [specEntityExtractBody "Apple" ["PERSON"]] := by
  constructor
  · rfl
  · decide

/-- C2 counterexample: the Agentic RAG query error handler destroys the
previously displayed result — from a state displaying a prior answer, an
error settle leaves `result = none`, not the prior payload. -/
theorem C2_agentic_error_clears_result :
    (AgenticRAG.onQueryError "network error"
        { result := some (JVal.str "prior answer") }).1.result = none ∧
    (none : Option JVal) ≠ some (JVal.str "prior answer") := by
  exact ⟨rfl, by decide⟩

/-- C2 (amended): on every page except the Agentic RAG query, a request that
settles with an error leaves the previously displayed result payload
unchanged (RAG Chat appends an error reply, preserving prior messages as a
prefix), and failed destructive admin actions leave page data untouched; the
Agentic RAG query error handler instead clears the displayed result. -/
theorem C2_error_preserves_results_except_agentic :
    ∀ (sp : PDFProcessorState) (sg : GraphRAGState) (sc : ContractExtractionState)
      (se : EntityExtractionState) (st : Text2CypherState) (sk : KGCState)
      (sa : AgenticRAGState) (msgs : List ChatMessage)
      (txt errDetail : String) (payload : JVal),
      (PDFProcessor.onUploadError sp).1 = sp ∧
      (PDFProcessor.onDownloadError sp).1 = sp ∧
      (GraphRAG.onGlobalError sg).1 = sg ∧
      (GraphRAG.onLocalError sg).1 = sg ∧
      (GraphRAG.onCommunitiesError sg).1 = sg ∧
      (ContractExtraction.onExtractError sc).1 = sc ∧
      (EntityExtraction.onExtractError se).1 = se ∧
      (RAGChat.onQueryError msgs).1.take msgs.length = msgs ∧
      (Text2Cypher.onGenerateError errDetail st).1.cypherQuery = st.cypherQuery ∧
      (Text2Cypher.onGenerateError errDetail st).1.queryResults = st.queryResults ∧
      (KnowledgeGraphConstruction.extractContractInfo txt false payload errDetail sk).2.extractedData
        = sk.extractedData ∧
      (KnowledgeGraphConstruction.clearData true false errDetail sk).2.extractedData
        = sk.extractedData ∧
      (KnowledgeGraphConstruction.clearData true false errDetail sk).2.graphData
        = sk.graphData ∧
      (Text2Cypher.handleResetDatabase true false st).2 = st ∧
      (AgenticRAG.onQueryError errDetail sa).1.result = none := by
  intro sp sg sc se st sk sa msgs txt errDetail payload
  refine ⟨rfl, rfl, rfl, rfl, rfl, rfl, rfl, List.take_left msgs _, rfl, rfl, ?_,
    rfl, rfl, rfl, rfl⟩
  unfold KnowledgeGraphConstruction.extractContractInfo
  split
  · rfl
  · rfl

/-- C3 counterexample: the claim says no request in this layer is retried
automatically, but the agentic-rag tools query is configured with `retry: 3`,
so one trigger can cause up to four HTTP attempts, not at most one. -/
theorem C3_agentic_tools_query_retries :
    AgenticRAG.toolsQueryConfig ∈ pageQueryConfigs ∧
    attemptsPerTrigger AgenticRAG.toolsQueryConfig.retry = some 4 ∧
    attemptsPerTrigger AgenticRAG.toolsQueryConfig.retry ≠ some 1 := by decide

/-- C3 (amended): no mutation call site configures a retry, and among the
query call sites exactly one configures automatic retries — the agentic-rag
tools query, with `retry: 3` (up to four attempts per trigger) — while the
text2cypher schema query explicitly disables retries (one attempt). -/
theorem C3_retry_policy :
    (pageQueryConfigs.filter (fun q => hasExplicitRetry q.retry)).map QueryConfig.key
        = ["agentic-rag-tools"] ∧
    AgenticRAG.toolsQueryConfig.retry = RetrySetting.times 3 ∧
    attemptsPerTrigger AgenticRAG.toolsQueryConfig.retry = some 4 ∧
    Text2Cypher.schemaQueryConfig.retry = RetrySetting.off ∧
    attemptsPerTrigger Text2Cypher.schemaQueryConfig.retry = some 1 ∧
    pageMutationRetrySettings.all (fun m => !hasExplicitRetry m.2) = true := by decide

/-- C4: for every domain API function and all inputs, the method and path of
the emitted request equal exactly the §6 table entry for that operation, and
the knowledge-graph operations fall under the POST/GET knowledge-graph row of
the table. -/
theorem C4_method_path_table :
    ∀ (x : JVal) (o o2 : Option JVal),
      (((pdfAPI.uploadPDF x).method, (pdfAPI.uploadPDF x).path) = (.post, "/api/pdf/upload")
        ∧ (Method.post, "/api/pdf/upload") ∈ specEndpointTable) ∧
      (((pdfAPI.downloadPDF x).method, (pdfAPI.downloadPDF x).path) = (.post, "/api/pdf/download")
        ∧ (Method.post, "/api/pdf/download") ∈ specEndpointTable) ∧
      (((ragAPI.query x o).method, (ragAPI.query x o).path) = (.post, "/api/rag/query")
        ∧ (Method.post, "/api/rag/query") ∈ specEndpointTable) ∧
      (((ragAPI.stepbackQuery x).method, (ragAPI.stepbackQuery x).path) = (.post, "/api/rag/stepback")
        ∧ (Method.post, "/api/rag/stepback") ∈ specEndpointTable) ∧
      (((text2cypherAPI.query x o o2).method, (text2cypherAPI.query x o o2).path)
          = (.post, "/api/text2cypher/query")
        ∧ (Method.post, "/api/text2cypher/query") ∈ specEndpointTable) ∧
      ((text2cypherAPI.getSchema.method, text2cypherAPI.getSchema.path)
          = (.get, "/api/text2cypher/schema")
        ∧ (Method.get, "/api/text2cypher/schema") ∈ specEndpointTable) ∧
      ((text2cypherAPI.loadMoviesDataset.method, text2cypherAPI.loadMoviesDataset.path)
          = (.post, "/api/text2cypher/load-movies")
        ∧ (Method.post, "/api/text2cypher/load-movies") ∈ specEndpointTable) ∧
      (((agenticRAGAPI.query x).method, (agenticRAGAPI.query x).path)
          = (.post, "/api/agentic-rag/query")
        ∧ (Method.post, "/api/agentic-rag/query") ∈ specEndpointTable) ∧
      ((agenticRAGAPI.getTools.method, agenticRAGAPI.getTools.path)
          = (.get, "/api/agentic-rag/tools")
        ∧ (Method.get, "/api/agentic-rag/tools") ∈ specEndpointTable) ∧
      (((entityAPI.extract x o).method, (entityAPI.extract x o).path)
          = (.post, "/api/entities/extract")
        ∧ (Method.post, "/api/entities/extract") ∈ specEndpointTable) ∧
      ((entityAPI.getGraph.method, entityAPI.getGraph.path) = (.get, "/api/entities/graph")
        ∧ (Method.get, "/api/entities/graph") ∈ specEndpointTable) ∧
      (((contractAPI.extract x).method, (contractAPI.extract x).path)
          = (.post, "/api/contracts/extract")
        ∧ (Method.post, "/api/contracts/extract") ∈ specEndpointTable) ∧
      ((contractAPI.list.method, contractAPI.list.path) = (.get, "/api/contracts/list")
        ∧ (Method.get, "/api/contracts/list") ∈ specEndpointTable) ∧
      (((graphRAGAPI.globalQuery x).method, (graphRAGAPI.globalQuery x).path)
          = (.post, "/api/graph-rag/global")
        ∧ (Method.post, "/api/graph-rag/global") ∈ specEndpointTable) ∧
      (((graphRAGAPI.localQuery x).method, (graphRAGAPI.localQuery x).path)
          = (.post, "/api/graph-rag/local")
        ∧ (Method.post, "/api/graph-rag/local") ∈ specEndpointTable) ∧
      ((graphRAGAPI.calculateCommunities.method, graphRAGAPI.calculateCommunities.path)
          = (.post, "/api/graph-rag/communities")
        ∧ (Method.post, "/api/graph-rag/communities") ∈ specEndpointTable) ∧
      ((statsAPI.getStats.method, statsAPI.getStats.path) = (.get, "/api/stats")
        ∧ (Method.get, "/api/stats") ∈ specEndpointTable) ∧
      ((statsAPI.getHealth.method, statsAPI.getHealth.path) = (.get, "/health")
        ∧ (Method.get, "/health") ∈ specEndpointTable) ∧
      ((databaseAPI.reset.method, databaseAPI.reset.path) = (.post, "/api/database/reset")
        ∧ (Method.post, "/api/database/reset") ∈ specEndpointTable) ∧
      (((knowledgeGraphAPI.extract x).method, (knowledgeGraphAPI.extract x).path)
          = (.post, "/api/knowledge-graph/extract")
        ∧ specAllows Method.post "/api/knowledge-graph/extract" = true) ∧
      (((knowledgeGraphAPI.importDocument x).method, (knowledgeGraphAPI.importDocument x).path)
          = (.post, "/api/knowledge-graph/import")
        ∧ specAllows Method.post "/api/knowledge-graph/import" = true) ∧
      ((knowledgeGraphAPI.getSampleContract.method, knowledgeGraphAPI.getSampleContract.path)
          = (.get, "/api/knowledge-graph/sample-contract")
        ∧ specAllows Method.get "/api/knowledge-graph/sample-contract" = true) ∧
      ((knowledgeGraphAPI.getGraphData.method, knowledgeGraphAPI.getGraphData.path)
          = (.get, "/api/knowledge-graph/data")
        ∧ specAllows Method.get "/api/knowledge-graph/data" = true) ∧
      (((knowledgeGraphAPI.query x).method, (knowledgeGraphAPI.query x).path)
          = (.post, "/api/knowledge-graph/query")
        ∧ specAllows Method.post "/api/knowledge-graph/query" = true) ∧
      ((knowledgeGraphAPI.createConstraints.method, knowledgeGraphAPI.createConstraints.path)
          = (.post, "/api/knowledge-graph/constraints")
        ∧ specAllows Method.post "/api/knowledge-graph/constraints" = true) ∧
      ((knowledgeGraphAPI.getStatistics.method, knowledgeGraphAPI.getStatistics.path)
          = (.get, "/api/knowledge-graph/statistics")
        ∧ specAllows Method.get "/api/knowledge-graph/statistics" = true) ∧
      ((knowledgeGraphAPI.clear.method, knowledgeGraphAPI.clear.path)
          = (.post, "/api/knowledge-graph/clear")
        ∧ specAllows Method.post "/api/knowledge-graph/clear" = true) := by
  intro x o o2
  exact ⟨⟨rfl, by decide⟩, ⟨rfl, by decide⟩, ⟨rfl, by decide⟩, ⟨rfl, by decide⟩,
    ⟨rfl, by decide⟩, ⟨rfl, by decide⟩, ⟨rfl, by decide⟩, ⟨rfl, by decide⟩,
    ⟨rfl, by decide⟩, ⟨rfl, by decide⟩, ⟨rfl, by decide⟩, ⟨rfl, by decide⟩,
    ⟨rfl, by decide⟩, ⟨rfl, by decide⟩, ⟨rfl, by decide⟩, ⟨rfl, by decide⟩,
    ⟨rfl, by decide⟩, ⟨rfl, by decide⟩, ⟨rfl, by decide⟩, ⟨rfl, by decide⟩,
    ⟨rfl, by decide⟩, ⟨rfl, by decide⟩, ⟨rfl, by decide⟩, ⟨rfl, by decide⟩,
    ⟨rfl, by decide⟩, ⟨rfl, by decide⟩, ⟨rfl, by decide⟩⟩

/-- C5: each destructive action issues its underlying request exactly when
the blocking confirmation returns affirmative; a declined confirmation issues
no request and leaves page state unchanged. -/
theorem C5_destructive_confirmation_gate :
    ∀ (c rs cs : Bool) (errDetail : String) (sk : KGCState) (st : Text2CypherState),
      (databaseAPI.reset ∈ Statistics.handleResetDatabase c rs ↔ c = true) ∧
      (databaseAPI.reset ∈ Dashboard.handleResetDatabase c rs ↔ c = true) ∧
      (databaseAPI.reset ∈ (Text2Cypher.handleResetDatabase c rs st).1 ↔ c = true) ∧
      (knowledgeGraphAPI.clear ∈ (KnowledgeGraphConstruction.clearData c cs errDetail sk).1
        ↔ c = true) ∧
      Statistics.handleResetDatabase false rs = [] ∧
      Dashboard.handleResetDatabase false rs = [] ∧
      Text2Cypher.handleResetDatabase false rs st = ([], st) ∧
      KnowledgeGraphConstruction.clearData false cs errDetail sk = ([], sk) := by
  intro c rs cs errDetail sk st
  cases c <;> cases rs <;> cases cs <;>
    simp [Statistics.handleResetDatabase, Dashboard.handleResetDatabase,
      Text2Cypher.handleResetDatabase, KnowledgeGraphConstruction.clearData]

/-- C6: submitting the chat form with question "Who directed The Matrix?"
and search type "hybrid" appends the user message and issues exactly one
POST /api/rag/query request with exactly that body; on success the answer of
the response is appended verbatim as the content of the new bot message. -/
theorem C6_rag_roundtrip :
    ∀ (msgs msgs2 : List ChatMessage) (answer : String),
      RAGChat.handleSubmit "Who directed The Matrix?" "hybrid" false msgs =
        (msgs ++ [{ type := "user", content := "Who directed The Matrix?" }],
         [{ method := .post
            path := "/api/rag/query"
            body := [("question", JVal.str "Who directed The Matrix?"),
                     ("search_type", JVal.str "hybrid")] }]) ∧
      (RAGChat.onQuerySuccess answer msgs2).getLast? =
        some { type := "bot", content := answer } := by
  intro msgs msgs2 answer
  exact ⟨rfl, List.getLast?_concat msgs2⟩

/-- C7: the displayed result after a sequence of settles equals the payload
of the settle that arrived last, regardless of the order the requests were
submitted — on Graph RAG the result slice is overwritten per settle, on RAG
Chat the last appended bot message carries the last-settled answer. -/
theorem C7_last_resolved_wins :
    ∀ (init : Option JVal) (events : List SettleEvent) (payload : JVal)
      (msgs : List ChatMessage) (chat : List ChatSettle) (answer : String),
      events.getLast? = some (SettleEvent.success payload) →
      chat.getLast? = some (ChatSettle.success answer) →
      GraphRAG.displayAfter init events = some payload ∧
      (RAGChat.displayAfter msgs chat).getLast? = some { type := "bot", content := answer } := by
  intro init events payload msgs chat answer he hc
  exact ⟨graphRAG_displayAfter_last he, ragChat_displayAfter_last hc⟩

/-- C7 witness: query A settles after query B, so the payload of A is what
remains displayed even though A was submitted first. -/
theorem C7_last_resolved_wins_witness :
    GraphRAG.displayAfter none
        [SettleEvent.success (JVal.str "answer B"), SettleEvent.success (JVal.str "answer A")]
      = some (JVal.str "answer A") ∧
    (RAGChat.displayAfter []
        [ChatSettle.success "answer B", ChatSettle.success "answer A"]).getLast?
      = some { type := "bot", content := "answer A" } :=
  C7_last_resolved_wins none _ _ [] _ "answer A" rfl rfl

/-- C8: the shared client fixes the timeout at 30000 ms and no domain API
function overrides it, so the effective timeout of every emitted request is
30000 ms. -/
theorem C8_uniform_timeout :
    apiClient.timeout = 30000 ∧
    ∀ (x : JVal) (o o2 : Option JVal),
      effectiveTimeout (pdfAPI.uploadPDF x) = 30000 ∧
      effectiveTimeout (pdfAPI.downloadPDF x) = 30000 ∧
      effectiveTimeout (ragAPI.query x o) = 30000 ∧
      effectiveTimeout (ragAPI.stepbackQuery x) = 30000 ∧
      effectiveTimeout (text2cypherAPI.query x o o2) = 30000 ∧
      effectiveTimeout text2cypherAPI.getSchema = 30000 ∧
      effectiveTimeout text2cypherAPI.loadMoviesDataset = 30000 ∧
      effectiveTimeout (agenticRAGAPI.query x) = 30000 ∧
      effectiveTimeout agenticRAGAPI.getTools = 30000 ∧
      effectiveTimeout (entityAPI.extract x o) = 30000 ∧
      effectiveTimeout entityAPI.getGraph = 30000 ∧
      effectiveTimeout (contractAPI.extract x) = 30000 ∧
      effectiveTimeout contractAPI.list = 30000 ∧
      effectiveTimeout (graphRAGAPI.globalQuery x) = 30000 ∧
      effectiveTimeout (graphRAGAPI.localQuery x) = 30000 ∧
      effectiveTimeout graphRAGAPI.calculateCommunities = 30000 ∧
      effectiveTimeout statsAPI.getStats = 30000 ∧
      effectiveTimeout statsAPI.getHealth = 30000 ∧
      effectiveTimeout (knowledgeGraphAPI.extract x) = 30000 ∧
      effectiveTimeout (knowledgeGraphAPI.importDocument x) = 30000 ∧
      effectiveTimeout knowledgeGraphAPI.getSampleContract = 30000 ∧
      effectiveTimeout knowledgeGraphAPI.getGraphData = 30000 ∧
      effectiveTimeout (knowledgeGraphAPI.query x) = 30000 ∧
      effectiveTimeout knowledgeGraphAPI.createConstraints = 30000 ∧
      effectiveTimeout knowledgeGraphAPI.getStatistics = 30000 ∧
      effectiveTimeout knowledgeGraphAPI.clear = 30000 ∧
      effectiveTimeout databaseAPI.reset = 30000 := by
  refine ⟨rfl, fun x o o2 => ?_⟩
  exact ⟨rfl, rfl, rfl, rfl, rfl, rfl, rfl, rfl, rfl, rfl, rfl, rfl, rfl, rfl,
    rfl, rfl, rfl, rfl, rfl, rfl, rfl, rfl, rfl, rfl, rfl, rfl, rfl⟩

/-- C9: a submission whose input consists only of whitespace issues no HTTP
request on any of the query-style pages — the blank guard returns before the
request-issuing branch. -/
theorem C9_blank_submission_no_request :
    ∀ (s searchType : String) (isLoading : Bool) (msgs : List ChatMessage)
      (types : List String) (succeeds : Bool) (payload : JVal) (errDetail : String)
      (k : KGCState),
      (∀ c ∈ s.data, jsWhitespace c = true) →
      (RAGChat.handleSubmit s searchType isLoading msgs).2 = [] ∧
      GraphRAG.handleSubmit s searchType = [] ∧
      EntityExtraction.handleSubmit s types = [] ∧
      (KnowledgeGraphConstruction.extractContractInfo s succeeds payload errDetail k).1 = [] := by
  intro s searchType isLoading msgs types succeeds payload errDetail k hws
  have hb : jsBlank s = true := jsBlank_of_all_whitespace hws
  refine ⟨?_, ?_, ?_, ?_⟩
  · simp [RAGChat.handleSubmit, hb]
  · simp [GraphRAG.handleSubmit, hb]
  · simp [EntityExtraction.handleSubmit, hb]
  · simp [KnowledgeGraphConstruction.extractContractInfo, hb]

/-- C9 witness: a two-space input issues no request anywhere. -/
theorem C9_blank_submission_no_request_witness :
    (RAGChat.handleSubmit "  " "hybrid" false []).2 = [] ∧
    GraphRAG.handleSubmit "  " "global" = [] ∧
    EntityExtraction.handleSubmit "  " ["PERSON"] = [] ∧
    (KnowledgeGraphConstruction.extractContractInfo "  " true (JVal.str "p") "err" {}).1 = [] :=
  C9_blank_submission_no_request "  " "hybrid" false [] ["PERSON"] true (JVal.str "p") "err" {}
    (by decide)

/-- C10: toggling an entity type flips exactly the membership of that type, leaves
the other selected types and their relative order unchanged, appends the type
at the end when it was absent, and toggling twice returns the original
selection (as a set: up to permutation, for duplicate-free selections, which
is an invariant of the page state). -/
theorem C10_entity_type_toggle :
    ∀ (S : List String) (t : String), S.Nodup →
      (t ∈ EntityExtraction.handleEntityTypeChange t S ↔ t ∉ S) ∧
      (EntityExtraction.handleEntityTypeChange t S).filter (· != t) = S.filter (· != t) ∧
      (t ∉ S → EntityExtraction.handleEntityTypeChange t S = S ++ [t]) ∧
      (EntityExtraction.handleEntityTypeChange t
        (EntityExtraction.handleEntityTypeChange t S)).Perm S := by
  intro S t hnd
  by_cases hm : t ∈ S
  · have h1 : EntityExtraction.handleEntityTypeChange t S = S.filter (· != t) := by
      unfold EntityExtraction.handleEntityTypeChange
      rw [if_pos hm]
    have hnotmem : t ∉ S.filter (· != t) := by
      intro hc
      have := (List.mem_filter.mp hc).2
      simp at this
    refine ⟨?_, ?_, ?_, ?_⟩
    · rw [h1]
      simp only [hm, not_true_eq_false, iff_false]
      exact hnotmem
    · rw [h1]
      exact List.filter_eq_self.mpr fun a ha => (List.mem_filter.mp ha).2
    · intro hns
      exact absurd hm hns
    · rw [h1]
      unfold EntityExtraction.handleEntityTypeChange
      rw [if_neg hnotmem, ← hnd.erase_eq_filter t]
      exact (List.perm_append_singleton t _).trans (List.perm_cons_erase hm).symm
  · have h1 : EntityExtraction.handleEntityTypeChange t S = S ++ [t] := by
      unfold EntityExtraction.handleEntityTypeChange
      rw [if_neg hm]
    have hself : S.filter (· != t) = S :=
      List.filter_eq_self.mpr fun a ha => by
        simp only [bne_iff_ne, ne_eq, decide_eq_true_eq]
        intro hat
        exact hm (hat ▸ ha)
    refine ⟨?_, ?_, fun _ => h1, ?_⟩
    · rw [h1]
      simp [hm]
    · rw [h1, List.filter_append, hself]
      simp
    · rw [h1]
      unfold EntityExtraction.handleEntityTypeChange
      rw [if_pos (by simp), List.filter_append, hself]
      simp

/-- C10 witness: toggling "LOCATION" out of the default selection and back. -/
theorem C10_entity_type_toggle_witness :
    (("LOCATION" ∈ EntityExtraction.handleEntityTypeChange "LOCATION" defaultEntityTypes) ↔
      "LOCATION" ∉ defaultEntityTypes) ∧
    (EntityExtraction.handleEntityTypeChange "LOCATION" defaultEntityTypes).filter
        (· != "LOCATION") = defaultEntityTypes.filter (· != "LOCATION") ∧
    ("LOCATION" ∉ defaultEntityTypes →
      EntityExtraction.handleEntityTypeChange "LOCATION" defaultEntityTypes
        = defaultEntityTypes ++ ["LOCATION"]) ∧
    (EntityExtraction.handleEntityTypeChange "LOCATION"
      (EntityExtraction.handleEntityTypeChange "LOCATION" defaultEntityTypes)).Perm
        defaultEntityTypes :=
  C10_entity_type_toggle defaultEntityTypes "LOCATION" (by decide)

end RagFrontend


